import Mathlib

/-!
Verification development for the marine-migration dashboard's data pipeline
(`src/app.py`, `src/humpback_whale.py`).  The embedding models:

* the range resolver `get_time_range` and the resample-period policy of
  `fetch_data` (app.py lines 24-63);
* the response normalizer `process_api_data` (app.py lines 96-159),
  including timestamp discovery, timezone conversion, per-channel
  truncate/pad alignment, the supplemental chlorophyll merge, the
  expected-sensor registry completion, and the catch-all error handling;
* the fetch-button handler that replaces the session table
  (app.py lines 173-176);
* `safe_float_convert` and `show_condition_alerts`
  (humpback_whale.py lines 163-172 and 345-374).

Instants are modelled as integer seconds since the Unix epoch; Python
`datetime` arithmetic is exact integer arithmetic on seconds.  Sensor
values are an arbitrary type `V` (`Option V` cells model JSON values
with `null`, pandas `None`/NaN being the null marker).  Python `dict`s
keyed by column name are association lists with insert-or-overwrite
semantics preserving insertion order, which is Python's observable
behaviour for string keys.
-/

namespace MarineMigration

/-! ### Calendar arithmetic

Models the Gregorian-calendar computations that `datetime` and the
`pytz`/IANA timezone database perform.  `daysFromCivil` and
`civilFromDays` are the standard civil-from-days / days-from-civil
conversions between a calendar date and a count of days since
1970-01-01; Lean's `Int` division is floor division, which is what the
algorithm requires. -/

/-- Days since 1970-01-01 of the civil date `y-m-d` (proleptic Gregorian). -/
def daysFromCivil (y m d : Int) : Int :=
  let yy := if m ≤ 2 then y - 1 else y
  let era := yy / 400
  let yoe := yy - era * 400
  let mp := (m + 9) % 12
  let doy := (153 * mp + 2) / 5 + d - 1
  let doe := yoe * 365 + yoe / 4 - yoe / 100 + doy
  era * 146097 + doe - 719468

/-- The civil date `(y, m, d)` of a count of days since 1970-01-01. -/
def civilFromDays (z0 : Int) : Int × Int × Int :=
  let z := z0 + 719468
  let era := z / 146097
  let doe := z - era * 146097
  let yoe := (doe - doe / 1460 + doe / 36524 - doe / 146096) / 365
  let y := yoe + era * 400
  let doy := doe - (365 * yoe + yoe / 4 - yoe / 100)
  let mp := (5 * doy + 2) / 153
  let d := doy - (153 * mp + 2) / 5 + 1
  let m := if mp < 10 then mp + 3 else mp - 9
  (if m ≤ 2 then y + 1 else y, m, d)

/-- Day of week of an epoch-day count, `0` = Sunday (1970-01-01 was a Thursday). -/
def weekdayOfDay (day : Int) : Int := (day + 4) % 7

/-- The first Sunday on or after the given epoch day. -/
def sundayOnOrAfter (day : Int) : Int := day + (7 - weekdayOfDay day) % 7

/-- Calendar year containing the UTC instant `t` (seconds since epoch). -/
def yearOf (t : Int) : Int := (civilFromDays (t / 86400)).1

/-- UTC instant at which daylight-saving time starts in `America/Halifax`
in year `y`: second Sunday of March, 02:00 Atlantic Standard Time
(UTC−4), i.e. 06:00 UTC.  Models the IANA rule in force since 2007,
as applied by `pytz.timezone("America/Halifax")`. -/
def halifaxDstStart (y : Int) : Int :=
  sundayOnOrAfter (daysFromCivil y 3 8) * 86400 + 6 * 3600

/-- UTC instant at which daylight-saving time ends in `America/Halifax`
in year `y`: first Sunday of November, 02:00 Atlantic Daylight Time
(UTC−3), i.e. 05:00 UTC. -/
def halifaxDstEnd (y : Int) : Int :=
  sundayOnOrAfter (daysFromCivil y 11 1) * 86400 + 5 * 3600

/-- Whether the UTC instant `t` falls inside the `America/Halifax`
daylight-saving window of its calendar year. -/
def isHalifaxDST (t : Int) : Bool :=
  if halifaxDstStart (yearOf t) ≤ t ∧ t < halifaxDstEnd (yearOf t) then true else false

/-- UTC offset (seconds) of `America/Halifax` at UTC instant `t`:
UTC−3 during daylight-saving time, UTC−4 otherwise. -/
def halifaxOffset (t : Int) : Int :=
  if isHalifaxDST t then -3 * 3600 else -4 * 3600

/-- Local civil time (seconds on the local civil timeline) in
`America/Halifax` of the UTC instant `t`.  Models
`tz_convert(pytz.timezone("America/Halifax"))` in `process_api_data`. -/
def toHalifax (t : Int) : Int := t + halifaxOffset t

/-! ### Range resolver (`get_time_range`, app.py lines 24-42)

`now` models `datetime.datetime.utcnow()`; the Python function returns a
pair of `datetime`s or `(None, None)`, modelled as a pair of
`Option Int`. -/

/-- Model of `get_time_range(option)` at reference instant `now`. -/
def get_time_range (option : String) (now : Int) : Option Int × Option Int :=
  if option = "Past 10 Minutes" then (some (now - 10 * 60), some now)
  else if option = "Past 2 Hours" then (some (now - 2 * 3600), some now)
  else if option = "Past 24 Hours" then (some (now - 86400), some now)
  else if option = "Past 7 Days" then (some (now - 7 * 86400), some now)
  else if option = "Past 1 Month" then (some (now - 30 * 86400), some now)
  else if option = "Past 6 Months" then (some (now - 180 * 86400), some now)
  else if option = "Past 1 Year" then (some (now - 365 * 86400), some now)
  else if option = "All Available Data" then (some (daysFromCivil 2023 12 13 * 86400), some now)
  else (none, none)

/-- The selector values offered by the sidebar (app.py lines 167-171). -/
def supported_selectors : List String :=
  ["Past 10 Minutes", "Past 2 Hours", "Past 24 Hours", "Past 7 Days",
   "Past 1 Month", "Past 6 Months", "Past 1 Year", "All Available Data"]

/-- Model of the `resamplePeriod` entry added to `base_params` in
`fetch_data` (app.py lines 60-63): `none` when the key is not set. -/
def resamplePeriod (time_range : String) : Option Int :=
  if time_range = "Past 6 Months" then some 86400
  else if time_range = "Past 1 Year" ∨ time_range = "All Available Data" then some 259200
  else none

/-! ### Payload model

The JSON shapes consumed by `process_api_data`.  A raw sample time is a
zone-naive timestamp string; `valid t` stands for one that
`pd.to_datetime` parses to the UTC instant `t` (the spec's invariant:
upstream timestamps are zone-naive with UTC semantics), `invalid s` for
one on which `pd.to_datetime` raises.  Optional JSON keys are `Option`
fields.  A sensor block's `sensorName` is modelled as always present (a
string), as every payload the upstream API produces carries it. -/

/-- A raw timestamp entry of a `sampleTimes` array. -/
inductive RawTime where
  | valid (t : Int)
  | invalid (s : String)
deriving DecidableEq, Repr

/-- The `"data"` object nested in a sensor block. -/
structure SensorBlockData (V : Type) where
  sampleTimes : Option (List RawTime)
  values : Option (List (Option V))
deriving DecidableEq, Repr

/-- One entry of a `"sensorData"` list. -/
structure SensorBlock (V : Type) where
  sensorName : String
  data : Option (SensorBlockData V)
deriving DecidableEq, Repr

/-- One JSON payload returned by the scalar-data endpoint. -/
structure ApiPayload (V : Type) where
  sensorData : Option (List (SensorBlock V))
deriving DecidableEq, Repr

/-- The value `fetch_data` hands to `process_api_data`: the primary
payload, with the supplemental fluorometer payload attached under the
side key `"chlorophyll"` when it was fetched successfully. -/
structure FetchedData (V : Type) where
  primary : ApiPayload V
  chlorophyll : Option (ApiPayload V)
deriving DecidableEq, Repr

/-- The normalizer's output (the `pandas.DataFrame`): the canonical
timezone-converted timestamp column (the source stores it under the key
`"Time (Atlantic)"` in the same dict; it is modelled as a separate field
because its entries are instants, not sensor values), plus the named
value columns in insertion order. -/
structure Table (V : Type) where
  timeCol : Option (List Int)
  cols : List (String × List (Option V))
deriving DecidableEq, Repr

/-- The empty `pd.DataFrame()`. -/
def emptyTable {V : Type} : Table V := ⟨none, []⟩

/-! ### Response normalizer (`process_api_data`, app.py lines 96-159) -/

/-- The fixed expected-channel registry (app.py lines 103-111). -/
def expected_sensors : List String :=
  ["External pH (Dynamic Salinity)",
   "Oxygen Concentration Corrected",
   "Practical Salinity",
   "Temperature",
   "Density",
   "Internal Temperature",
   "Chlorophyll"]

/-- Timestamp discovery (app.py lines 113-117): the `sampleTimes` array
of the first block that has one. -/
def findSampleTimes {V : Type} : List (SensorBlock V) → Option (List RawTime)
  | [] => none
  | b :: rest =>
    match b.data with
    | some d =>
      match d.sampleTimes with
      | some ts => some ts
      | none => findSampleTimes rest
    | none => findSampleTimes rest

/-- The canonical raw timestamp vector of a fetched payload: timestamp
discovery applied to the primary `sensorData` list when present. -/
def canonicalTimes {V : Type} (d : FetchedData V) : Option (List RawTime) :=
  match d.primary.sensorData with
  | some blocks => findSampleTimes blocks
  | none => none

/-- Model of `pd.to_datetime(time_values)` followed by
`tz_localize(pytz.utc)`: parse every raw entry as a UTC instant, raising
(`Except.error`) if any entry is unparseable.  The localize step is the
identity here because every `RawTime` is zone-naive. -/
def toDatetimeUtc : List RawTime → Except String (List Int)
  | [] => .ok []
  | .valid t :: rest =>
    match toDatetimeUtc rest with
    | .ok ts => .ok (t :: ts)
    | .error e => .error e
  | .invalid s :: _ => .error s

/-- Per-channel alignment against the canonical timestamp length `T`
(app.py lines 133-136 and, duplicated verbatim, lines 144-147):
truncate when longer, pad the tail with null markers when shorter. -/
def alignValues {V : Type} (values : List (Option V)) (T : Nat) : List (Option V) :=
  if values.length > T then values.take T
  else if values.length < T then values ++ List.replicate (T - values.length) none
  else values

/-- Insert-or-overwrite on a Python dict keyed by column name:
an existing key keeps its position and gets the new value, a new key is
appended. -/
def dictInsert {α : Type} : List (String × α) → String → α → List (String × α)
  | [], k, v => [(k, v)]
  | p :: rest, k, v =>
    if p.1 == k then (k, v) :: rest else p :: dictInsert rest k v

/-- Lookup on a Python dict keyed by column name. -/
def dictLookup {α : Type} (m : List (String × α)) (k : String) : Option α :=
  match m.find? (fun p => p.1 == k) with
  | some p => some p.2
  | none => none

/-- The primary-channel loop (app.py lines 128-137): every block with a
`values` array contributes its aligned values under its sensor name. -/
def addPrimary {V : Type} (T : Nat) (blocks : List (SensorBlock V))
    (m : List (String × List (Option V))) : List (String × List (Option V)) :=
  blocks.foldl (fun m b =>
    match b.data with
    | some d =>
      match d.values with
      | some vs => dictInsert m b.sensorName (alignValues vs T)
      | none => m
    | none => m) m

/-- The supplemental chlorophyll loop (app.py lines 140-148): every
block named `"Chlorophyll"` with a `values` array writes its aligned
values under the key `"Chlorophyll"`. -/
def addChlorophyll {V : Type} (T : Nat) (blocks : List (SensorBlock V))
    (m : List (String × List (Option V))) : List (String × List (Option V)) :=
  blocks.foldl (fun m b =>
    if b.sensorName == "Chlorophyll" then
      match b.data with
      | some d =>
        match d.values with
        | some vs => dictInsert m "Chlorophyll" (alignValues vs T)
        | none => m
      | none => m
    else m) m

/-- The `values` array of the last block named `"Chlorophyll"` that has
one, in a supplemental `sensorData` list: the value whose aligned form
the chlorophyll loop leaves under the `"Chlorophyll"` key. -/
def lastChlorValues {V : Type} : List (SensorBlock V) → Option (List (Option V))
  | [] => none
  | b :: rest =>
    match lastChlorValues rest with
    | some vs => some vs
    | none =>
      if b.sensorName == "Chlorophyll" then
        match b.data with
        | some dd => dd.values
        | none => none
      else none

/-- The value columns accumulated into `processed_data` before registry
completion: the primary loop, then the supplemental merge (app.py
lines 128-148). -/
def primaryColumns {V : Type} (T : Nat) (d : FetchedData V) :
    List (String × List (Option V)) :=
  let m1 :=
    match d.primary.sensorData with
    | some blocks => addPrimary T blocks []
    | none => []
  match d.chlorophyll with
  | some cp =>
    match cp.sensorData with
    | some cblocks => addChlorophyll T cblocks m1
    | none => m1
  | none => m1

/-- One step of registry completion (app.py lines 152-154): `if sensor
not in df.columns: df[sensor] = None` — a sensor not already a column is
appended as a column of null markers (pandas broadcasts `None` over the
`T` rows). -/
def regStep {V : Type} (T : Nat) (m : List (String × List (Option V)))
    (s : String) : List (String × List (Option V)) :=
  if m.any (fun p => p.1 == s) then m else m ++ [(s, List.replicate T none)]

/-- Registry completion: the loop over `expected_sensors`. -/
def completeRegistry {V : Type} (T : Nat)
    (m : List (String × List (Option V))) : List (String × List (Option V)) :=
  expected_sensors.foldl (regStep T) m

/-- The body of `process_api_data`'s `try` block (app.py lines 100-156):
`Except.error` models an exception reaching the catch-all handler. -/
def process_api_data_body {V : Type} (d : FetchedData V) : Except String (Table V) :=
  match canonicalTimes d with
  | none => .ok emptyTable
  | some raw =>
    match toDatetimeUtc raw with
    | .error e => .error e
    | .ok utc =>
      let T := raw.length
      .ok ⟨some (utc.map toHalifax), completeRegistry T (primaryColumns T d)⟩

/-- Model of `process_api_data(data)` (app.py lines 96-159): `none`
input models a falsy `data` (the `if not data` guard); an error from the
body is caught and an empty table returned. -/
def process_api_data {V : Type} (data : Option (FetchedData V)) : Table V :=
  match data with
  | none => emptyTable
  | some d =>
    match process_api_data_body d with
    | .ok t => t
    | .error _ => emptyTable

/-! ### Fetch step and button handler (app.py lines 44-94, 173-176)

The two HTTP exchanges are inputs: `standardResponse` is the primary
device's response; `chlorophyllResponse = none` models a raised
`requests` exception on the supplemental fetch (caught at app.py
line 88). -/

/-- One HTTP response: status code and decoded JSON body. -/
structure HttpResponse (V : Type) where
  status_code : Int
  body : ApiPayload V
deriving DecidableEq, Repr

/-- Model of `fetch_data(time_range)` (app.py lines 44-94). -/
def fetch_data {V : Type} (time_range : String) (now : Int)
    (standardResponse : HttpResponse V)
    (chlorophyllResponse : Option (HttpResponse V)) : Option (FetchedData V) :=
  let r := get_time_range time_range now
  if r.1 = none ∨ r.2 = none then none
  else if standardResponse.status_code = 200 then
    let chl :=
      match chlorophyllResponse with
      | some resp =>
        if resp.status_code = 200 then
          match resp.body.sensorData with
          | some bs => if bs.isEmpty then none else some resp.body
          | none => none
        else none
      | none => none
    some ⟨standardResponse.body, chl⟩
  else none

/-- The fetch-button handler (app.py lines 173-176): it assigns
`process_api_data(fetch_data(time_range))` to the session-state table,
whatever the table previously held. -/
def fetchButtonHandler {V : Type} (prev : Table V) (time_range : String) (now : Int)
    (standardResponse : HttpResponse V)
    (chlorophyllResponse : Option (HttpResponse V)) : Table V :=
  let _ := prev
  process_api_data (fetch_data time_range now standardResponse chlorophyllResponse)

/-! ### Ecosystem health score -/

/-- Modelled from the spec: the per-row "ecosystem health score"
`10×oxygen − 2×pH − temperature` described in spec §4.2 (derived
metric); no revision under `src/` contains this computation, so the
definition follows the spec's words. -/
def healthScore (oxygen ph temperature : Rat) : Rat :=
  10 * oxygen - 2 * ph - temperature

/-- Modelled from the spec: the health-score column over the oxygen, pH
and temperature columns of the Normalized Table, defined on the rows
where all three inputs are present and null elsewhere. -/
def healthScoreColumn (oxygen ph temperature : List (Option Rat)) : List (Option Rat) :=
  (oxygen.zip (ph.zip temperature)).map (fun x =>
    match x with
    | (some o, some p, some t) => some (healthScore o p t)
    | _ => none)

/-! ### `safe_float_convert` and condition alerts
(humpback_whale.py lines 148-172, 345-374)

Python values reaching `safe_float_convert` are `None`, strings,
unbounded integers, or floats.  A float result is modelled by
`PyFloat`: a finite double stands for its exact rational value
(rounding of a decimal literal to the nearest double is abstracted
away except where it changes control flow: a decimal value at or
beyond the double-range rounding boundary becomes `±inf`, one at or
below the subnormal midpoint becomes `0.0`), plus the non-finite
doubles `inf`, `-inf` and `nan`.  `float()` of an int raises
`OverflowError` when the int lies at or beyond the rounding boundary
`2^1024 − 2^970` of the double range — an exception the source's
`except (ValueError, TypeError)` clause does not catch.  `float()` of
a string follows Python's grammar: optional sign, decimal digits with
underscores allowed only between digits, optional fraction and
exponent, and the case-insensitive forms `inf`, `infinity`, `nan`
(ASCII digits; Python's acceptance of other Unicode decimal digits is
not modelled). -/

/-- A Python float value. -/
inductive PyFloat where
  | val (q : Rat)
  | inf
  | negInf
  | nan
deriving DecidableEq, Repr

/-- A Python value as handled by `safe_float_convert`. -/
inductive PyVal where
  | none
  | str (s : String)
  | int (n : Int)
  | float (q : Rat)
deriving DecidableEq, Repr

/-- The exception kinds relevant to `safe_float_convert`: the two its
`except (ValueError, TypeError)` clause catches, and the
`OverflowError` that `float()` of an out-of-range int raises. -/
inductive PyErr where
  | valueError
  | typeError
  | overflowError
deriving DecidableEq, Repr

/-- Whitespace as Python `str.strip` removes it (space and the ASCII
control characters 9-13). -/
def isStripChar (c : Char) : Bool :=
  c == ' ' || (9 ≤ c.toNat && c.toNat ≤ 13)

/-- Removal of every occurrence of the two-character substring `°C`,
modelling `value.replace("°C", "")` character by character (Python
scans left to right without overlap, which this recursion mirrors). -/
def removeDegC : List Char → List Char
  | [] => []
  | '°' :: 'C' :: rest => removeDegC rest
  | c :: rest => c :: removeDegC rest

/-- The `.strip()` step: leading and trailing whitespace removed. -/
def trimChars (l : List Char) : List Char :=
  ((l.dropWhile isStripChar).reverse.dropWhile isStripChar).reverse

/-- The string cleanup `value.replace("°C", "").strip()`. -/
def stripDegC (s : String) : String := ⟨trimChars (removeDegC s.data)⟩

/-- Split at every character satisfying `p`, modelling `str.split` on
a one-character separator class. -/
def splitOnChar (p : Char → Bool) : List Char → List (List Char)
  | [] => [[]]
  | c :: rest =>
    if p c then [] :: splitOnChar p rest
    else
      match splitOnChar p rest with
      | h :: t => (c :: h) :: t
      | [] => [[c]]

/-- Tail of a digit group: underscores may only stand between digits. -/
def digitsTail : List Char → Bool
  | [] => true
  | '_' :: rest =>
    match rest with
    | c :: _ => c.isDigit && digitsTail rest
    | [] => false
  | c :: rest => c.isDigit && digitsTail rest

/-- A digit group as Python's float grammar admits it: nonempty ASCII
digits with underscores allowed only between digits. -/
def digitsOk : List Char → Bool
  | [] => false
  | c :: rest => c.isDigit && digitsTail rest

/-- Digits of a group as a natural number, underscores skipped. -/
def natOfDigits (l : List Char) : Nat :=
  l.foldl (fun n c => if c = '_' then n else n * 10 + (c.toNat - 48)) 0

/-- Number of actual digits of a fractional group (underscores do not
count toward the decimal scale). -/
def fracDigits (l : List Char) : Nat :=
  (l.filter (fun c => c != '_')).length

/-- The exact rational value of a mantissa `intpart[.fracpart]` with at
least one digit overall. -/
def parseMantissa (l : List Char) : Option Rat :=
  match splitOnChar (fun c => c == '.') l with
  | [ip] => if digitsOk ip then some ((natOfDigits ip : Nat) : Rat) else none
  | [ip, fp] =>
    if (ip ≠ [] ∨ fp ≠ []) ∧ (ip = [] ∨ digitsOk ip = true) ∧
        (fp = [] ∨ digitsOk fp = true) then
      some ((natOfDigits ip : Rat) + (natOfDigits fp : Rat) / (10 : Rat) ^ fracDigits fp)
    else none
  | _ => none

/-- The exponent part: optional sign and a digit group. -/
def parseExp (l : List Char) : Option Int :=
  match l with
  | '-' :: r => if digitsOk r then some (-(natOfDigits r : Int)) else none
  | '+' :: r => if digitsOk r then some ((natOfDigits r : Int)) else none
  | r => if digitsOk r then some ((natOfDigits r : Int)) else none

/-- The exact rational value of an unsigned numeric literal
`mantissa[(e|E)exponent]`. -/
def parseDecimal (l : List Char) : Option Rat :=
  match splitOnChar (fun c => c == 'e' || c == 'E') l with
  | [m] => parseMantissa m
  | [m, ex] =>
    match parseMantissa m, parseExp ex with
    | some v, some e => some (v * (10 : Rat) ^ e)
    | _, _ => none
  | _ => none

/-- The double-range rounding boundary, written as its decimal value:
the number `2^1024 − 2^970`.  A value at or beyond it in magnitude
rounds (ties to even) past the largest double `2^1024 − 2^971` and
overflows (`float(2**1024 - 2**970)` raises,
`float(2**1024 - 2**970 - 1)` is the largest double). -/
def overflowBoundNat : Nat :=
  179769313486231580793728971405303415079934132710037826936173778980444968292764750946649017977587207096330286416692887910946555547851940402630657488671505820681908902000708383676273854845817711531764475730270069855571366959622842914819860834936475292719074168444365510704342711559699508093042880177904174497792

/-- The double-range rounding boundary as a rational. -/
def overflowBound : Rat := (overflowBoundNat : Rat)

/-- The number `2^1075`, written as its decimal value: the reciprocal
of the midpoint under the smallest subnormal double. -/
def subnormalMidpointDen : Nat :=
  404804506614621236704990693437834614099113299528284236713802716054860679135990693783920767402874248990374155728633623822779617474771586953734026799881477019843034848553132722728933815484186432682479535356945490137124014966849385397236206711298319112681620113024717539104666829230461005064372655017292012526615415482186989568

/-- Whether a decimal value underflows to `0.0`: at or below the
midpoint `2^(−1075)` under the smallest subnormal double
(`float("1e-400")` is `0.0`). -/
def underflowsToZero (q : Rat) : Bool :=
  if |q| * (subnormalMidpointDen : Rat) ≤ 1 then true else false

/-- Whether `float(n)` of an unbounded int raises `OverflowError`:
exactly when `n` lies at or beyond the double-range rounding
boundary. -/
def intOverflows (n : Int) : Bool :=
  if overflowBoundNat ≤ n.natAbs then true else false

/-- Model of Python `float(s)` on a string: `none` models a raised
`ValueError`; a finite decimal value beyond the double range becomes
`±inf` (string conversion never raises `OverflowError`). -/
def floatOfString (s : String) : Option PyFloat :=
  let (neg, body) :=
    match s.data with
    | '-' :: r => (true, r)
    | '+' :: r => (false, r)
    | r => (false, r)
  let lower := body.map Char.toLower
  if lower = ['i', 'n', 'f'] ∨ lower = ['i', 'n', 'f', 'i', 'n', 'i', 't', 'y'] then
    some (if neg then .negInf else .inf)
  else if lower = ['n', 'a', 'n'] then some .nan
  else
    match parseDecimal body with
    | some v =>
      if overflowBound ≤ v then some (if neg then .negInf else .inf)
      else if underflowsToZero v then some (.val 0)
      else some (.val (if neg then -v else v))
    | Option.none => none

/-- The body of `safe_float_convert`'s `try` block: a truthy string is
cleaned and parsed (`float()` of a string may raise `ValueError`); an
int or float is converted by `float()`, which raises `OverflowError`
on an int at or beyond the double range; everything else falls through
to `return default`. -/
def tryBodyFloat (value : PyVal) (default : Rat) : Except PyErr PyFloat :=
  match value with
  | .str s =>
    if s = "" then .ok (.val default)
    else
      match floatOfString (stripDegC s) with
      | some f => .ok f
      | Option.none => .error .valueError
  | .int n => if intOverflows n then .error .overflowError else .ok (.val (n : Rat))
  | .float q => .ok (.val q)
  | .none => .ok (.val default)

/-- Model of `safe_float_convert(value, default)` (humpback_whale.py
lines 163-172): the `try` body with `ValueError` and `TypeError`
mapped to `default`; any other exception — the `OverflowError` from
`float()` of a huge int — is not caught and propagates to the
caller. -/
def safe_float_convert (value : PyVal) (default : Rat) : Except PyErr PyFloat :=
  match tryBodyFloat value default with
  | .ok f => .ok f
  | .error .valueError => .ok (.val default)
  | .error .typeError => .ok (.val default)
  | .error e => .error e

/-- Python `x != 0.0` on a float: true for every non-finite value
(`nan != 0.0` and `inf != 0.0` both hold). -/
def pyFloatNeZero : PyFloat → Bool
  | .val q => if q = 0 then false else true
  | _ => true

/-- Python `x < r` on a float against a finite bound: false for `nan`
and `inf`, true for `-inf`. -/
def pyFloatLt (x : PyFloat) (r : Rat) : Bool :=
  match x with
  | .val q => if q < r then true else false
  | .inf => false
  | .negInf => true
  | .nan => false

/-- Python `x > r` on a float against a finite bound: false for `nan`
and `-inf`, true for `inf`. -/
def pyFloatGt (x : PyFloat) (r : Rat) : Bool :=
  match x with
  | .val q => if r < q then true else false
  | .inf => true
  | .negInf => false
  | .nan => false

/-- A row of the table as `show_condition_alerts` reads it. -/
abbrev Row := List (String × PyVal)

/-- Model of `latest.get(key)`: the value under `key`, or Python `None`
when the key is absent. -/
def rowGet (row : Row) (k : String) : PyVal :=
  match row.find? (fun p => p.1 == k) with
  | some p => p.2
  | Option.none => .none

/-- The `PREY_DATA` table (humpback_whale.py lines 148-161):
species, minimum and maximum of `temp_range`, and `peak_season`. -/
def PREY_DATA : List (String × Rat × Rat × String) :=
  [("Capelin", 2, 12, "June-July"),
   ("Krill", (-3 : Rat) / 2, 10, "April-September"),
   ("Herring", 4, 15, "May-June & Aug-Sep")]

/-- One message emitted by `show_condition_alerts`. -/
inductive Alert where
  | warningOutsideRange (species : String) (temp : PyFloat) (lo hi : Rat)
  | successOptimal (species : String)
  | infoAcceptable
  | noTemperatureData
deriving DecidableEq, Repr

/-- Model of `show_condition_alerts(df)` (humpback_whale.py
lines 345-374) as the list of messages displayed, or the exception it
propagates: `df` is the list of rows (`df.iloc[-1]` is the last),
`currentMonth` models `datetime.now().month`.  Both conversions at
lines 353-354 run before the branch, so an uncaught `OverflowError`
from either escapes this function too; the `alerts_shown` flag is the
non-emptiness of the accumulated list. -/
def show_condition_alerts (df : List Row) (currentMonth : Nat) :
    Except PyErr (List Alert) :=
  match df.getLast? with
  | Option.none => .ok []
  | some latest =>
    match safe_float_convert (rowGet latest "Temperature") 0 with
    | .error e => .error e
    | .ok temp =>
      match safe_float_convert (rowGet latest "External pH (Dynamic Salinity)") 0 with
      | .error e => .error e
      | .ok _ph =>
        if pyFloatNeZero temp then
          let alerts := PREY_DATA.foldl (fun acc x =>
            if pyFloatLt temp x.2.1 || pyFloatGt temp x.2.2.1 then
              acc ++ [.warningOutsideRange x.1 temp x.2.1 x.2.2.1]
            else if currentMonth = 6 ∨ currentMonth = 7 ∨ currentMonth = 8 then
              acc ++ [.successOptimal x.1]
            else acc) []
          if alerts.isEmpty then .ok [.infoAcceptable] else .ok alerts
        else .ok [.noTemperatureData]

/-! ## Helper lemmas -/

/-- A predicate preserved by every step of a left fold holds of the fold. -/
theorem foldl_inv {σ β : Type _} (step : σ → β → σ) (Inv : σ → Prop)
    (h : ∀ s b, Inv s → Inv (step s b)) :
    ∀ (l : List β) (s : σ), Inv s → Inv (l.foldl step s)
  | [], _, hs => hs
  | b :: l, s, hs => foldl_inv step Inv h l (step s b) (h s b hs)

/-- Alignment always produces a column of exactly the canonical length. -/
theorem alignValues_length {V : Type} (vs : List (Option V)) (T : Nat) :
    (alignValues vs T).length = T := by
  unfold alignValues
  split_ifs with h1 h2
  · simp only [List.length_take]
    omega
  · simp only [List.length_append, List.length_replicate]
    omega
  · omega

/-- Successful timestamp parsing preserves the vector's length. -/
theorem toDatetimeUtc_length :
    ∀ (raw : List RawTime) (utc : List Int), toDatetimeUtc raw = .ok utc →
      utc.length = raw.length
  | [], utc, h => by
    simp only [toDatetimeUtc] at h
    cases h
    rfl
  | .valid t :: rest, utc, h => by
    simp only [toDatetimeUtc] at h
    cases hr : toDatetimeUtc rest with
    | ok ts =>
      rw [hr] at h
      cases h
      simp [toDatetimeUtc_length rest ts hr]
    | error e =>
      rw [hr] at h
      cases h
  | .invalid s :: rest, utc, h => by
    simp only [toDatetimeUtc] at h
    cases h

/-- Values of a dict after insert-or-overwrite all satisfy a predicate
the prior values and the inserted value satisfy. -/
theorem dictInsert_forall {α : Type} (P : α → Prop) :
    ∀ (m : List (String × α)) (k : String) (v : α),
      (∀ p ∈ m, P p.2) → P v → ∀ p ∈ dictInsert m k v, P p.2
  | [], k, v, _, hv => by
    intro p hp
    simp only [dictInsert, List.mem_singleton] at hp
    subst hp
    exact hv
  | q :: rest, k, v, hm, hv => by
    intro p hp
    unfold dictInsert at hp
    by_cases h : q.1 == k
    · rw [if_pos h] at hp
      rcases List.mem_cons.mp hp with h1 | h1
      · subst h1
        exact hv
      · exact hm p (List.mem_cons_of_mem q h1)
    · rw [if_neg h] at hp
      rcases List.mem_cons.mp hp with h1 | h1
      · subst h1
        exact hm p (List.mem_cons_self p rest)
      · exact dictInsert_forall P rest k v (fun r hr => hm r (List.mem_cons_of_mem q hr)) hv p h1

/-- Lookup on a nonempty dict: the head's value when its key matches,
the tail's lookup otherwise. -/
theorem dictLookup_cons {α : Type} (q : String × α) (m : List (String × α))
    (k : String) :
    dictLookup (q :: m) k = if q.1 == k then some q.2 else dictLookup m k := by
  by_cases h : q.1 == k
  · simp [dictLookup, List.find?_cons, h]
  · have hf : (q.1 == k) = false := by
      simpa using h
    simp [dictLookup, List.find?_cons, hf]

/-- Insert-or-overwrite stores the new value under the key. -/
theorem dictLookup_dictInsert_self {α : Type} :
    ∀ (m : List (String × α)) (k : String) (v : α),
      dictLookup (dictInsert m k v) k = some v
  | [], k, v => by
    simp [dictInsert, dictLookup_cons]
  | q :: rest, k, v => by
    unfold dictInsert
    by_cases h : q.1 == k
    · rw [if_pos h, dictLookup_cons]
      simp
    · rw [if_neg h, dictLookup_cons, if_neg h]
      exact dictLookup_dictInsert_self rest k v

/-- Insert-or-overwrite leaves other keys' values unchanged. -/
theorem dictLookup_dictInsert_ne {α : Type} :
    ∀ (m : List (String × α)) (k k' : String) (v : α), k' ≠ k →
      dictLookup (dictInsert m k v) k' = dictLookup m k'
  | [], k, k', v, hne => by
    have h1 : (k == k') = false := beq_eq_false_iff_ne.mpr (Ne.symm hne)
    simp [dictInsert, dictLookup_cons, h1, dictLookup]
  | q :: rest, k, k', v, hne => by
    unfold dictInsert
    by_cases h : q.1 == k
    · have hq : q.1 = k := by
        simpa using h
      have h1 : (k == k') = false := beq_eq_false_iff_ne.mpr (Ne.symm hne)
      rw [if_pos h, dictLookup_cons, dictLookup_cons]
      simp [h1, hq]
    · rw [if_neg h, dictLookup_cons, dictLookup_cons]
      by_cases hq : q.1 == k'
      · simp [hq]
      · have hf : (q.1 == k') = false := by
          simpa using hq
        simp [hf]
        exact dictLookup_dictInsert_ne rest k k' v hne

/-- Keys after insert-or-overwrite: unchanged when the key was present,
the key appended when it was new. -/
theorem dictInsert_keys {α : Type} :
    ∀ (m : List (String × α)) (k : String) (v : α),
      (dictInsert m k v).map Prod.fst =
        if k ∈ m.map Prod.fst then m.map Prod.fst else m.map Prod.fst ++ [k]
  | [], k, v => by
    simp [dictInsert]
  | q :: rest, k, v => by
    unfold dictInsert
    by_cases h : q.1 == k
    · have hq : q.1 = k := by
        simpa using h
      rw [if_pos h]
      simp [hq]
    · have hq : q.1 ≠ k := by
        simpa using h
      have hkq : k ≠ q.1 := Ne.symm hq
      rw [if_neg h]
      simp only [List.map_cons]
      rw [dictInsert_keys rest k v]
      by_cases hk : k ∈ rest.map Prod.fst
      · rw [if_pos hk, if_pos (by simp [List.mem_cons, hk])]
      · rw [if_neg hk, if_neg (by simp [List.mem_cons, hkq, hk])]
        simp

/-- A dict's `any` key test is its key-list membership. -/
theorem any_key_iff_mem {α : Type} (m : List (String × α)) (k : String) :
    m.any (fun p => p.1 == k) = true ↔ k ∈ m.map Prod.fst := by
  simp [List.any_eq_true, List.mem_map, beq_iff_eq]

/-- A failed lookup is absence from the key list. -/
theorem dictLookup_eq_none_iff {α : Type} (m : List (String × α)) (k : String) :
    dictLookup m k = none ↔ k ∉ m.map Prod.fst := by
  unfold dictLookup
  cases hf : m.find? (fun p => p.1 == k) with
  | some p =>
    simp only [reduceCtorEq, false_iff, not_not]
    have hp := List.mem_of_find?_eq_some hf
    have he : p.1 = k := by
      simpa using List.find?_some hf
    exact he ▸ List.mem_map_of_mem Prod.fst hp
  | none =>
    simp only [true_iff]
    intro hk
    rcases List.mem_map.mp hk with ⟨p, hp, he⟩
    have := List.find?_eq_none.mp hf p hp
    simp [he] at this

/-- A successful lookup is presence in the key list. -/
theorem mem_keys_of_dictLookup_some {α : Type} (m : List (String × α)) (k : String)
    (v : α) (h : dictLookup m k = some v) : k ∈ m.map Prod.fst := by
  by_contra hk
  rw [(dictLookup_eq_none_iff m k).mpr hk] at h
  cases h

/-- Insert-or-overwrite preserves distinctness of keys. -/
theorem dictInsert_keys_nodup {α : Type} (m : List (String × α)) (k : String) (v : α)
    (h : (m.map Prod.fst).Nodup) : ((dictInsert m k v).map Prod.fst).Nodup := by
  rw [dictInsert_keys]
  split_ifs with hk
  · exact h
  · have : ((m.map Prod.fst) ++ [k]).Nodup ↔ (m.map Prod.fst).Nodup ∧ k ∉ m.map Prod.fst := by
      simp [List.nodup_append]
    exact this.mpr ⟨h, hk⟩

/-- Lookup into the left part of an appended dict. -/
theorem dictLookup_append_left {α : Type} :
    ∀ (m l : List (String × α)) (k : String) (v : α),
      dictLookup m k = some v → dictLookup (m ++ l) k = some v
  | [], l, k, v, h => by
    simp [dictLookup, List.find?] at h
  | q :: rest, l, k, v, h => by
    rw [List.cons_append, dictLookup_cons]
    rw [dictLookup_cons] at h
    by_cases hq : q.1 == k
    · rw [if_pos hq] at h ⊢
      exact h
    · rw [if_neg hq] at h ⊢
      exact dictLookup_append_left rest l k v h

/-- One registry-completion step keeps every present key's value. -/
theorem regStep_lookup_some {V : Type} (T : Nat) (m : List (String × List (Option V)))
    (s k : String) (v : List (Option V)) (h : dictLookup m k = some v) :
    dictLookup (regStep T m s) k = some v := by
  unfold regStep
  split_ifs with ha
  · exact h
  · exact dictLookup_append_left m _ k v h

/-- Registry completion keeps every present key's value. -/
theorem regFold_lookup_some {V : Type} (T : Nat) :
    ∀ (l : List String) (m : List (String × List (Option V))) (k : String)
      (v : List (Option V)), dictLookup m k = some v →
      dictLookup (l.foldl (regStep T) m) k = some v
  | [], _, _, _, h => h
  | s :: rest, m, k, v, h =>
    regFold_lookup_some T rest (regStep T m s) k v (regStep_lookup_some T m s k v h)

/-- Appending a binding for an absent key makes its lookup succeed. -/
theorem dictLookup_append_single_self {α : Type} :
    ∀ (m : List (String × α)) (k : String) (v : α),
      dictLookup m k = none → dictLookup (m ++ [(k, v)]) k = some v
  | [], k, v, _ => by
    rw [List.nil_append, dictLookup_cons]
    simp
  | q :: rest, k, v, h => by
    rw [List.cons_append, dictLookup_cons]
    rw [dictLookup_cons] at h
    by_cases hq : q.1 == k
    · rw [if_pos hq] at h
      cases h
    · rw [if_neg hq] at h ⊢
      exact dictLookup_append_single_self rest k v h

/-- Appending a binding for a different key keeps a lookup failing. -/
theorem dictLookup_append_single_ne {α : Type} :
    ∀ (m : List (String × α)) (k s : String) (v : α), s ≠ k →
      dictLookup m k = none → dictLookup (m ++ [(s, v)]) k = none
  | [], k, s, v, hne, _ => by
    rw [List.nil_append, dictLookup_cons, if_neg (by simpa using hne)]
    simp [dictLookup, List.find?]
  | q :: rest, k, s, v, hne, h => by
    rw [List.cons_append, dictLookup_cons]
    rw [dictLookup_cons] at h
    by_cases hq : q.1 == k
    · rw [if_pos hq] at h
      cases h
    · rw [if_neg hq] at h ⊢
      exact dictLookup_append_single_ne rest k s v hne h

/-- After a registry-completion step for `s`, the key `s` is bound. -/
theorem regStep_lookup_self {V : Type} (T : Nat) (m : List (String × List (Option V)))
    (s : String) : ∃ v, dictLookup (regStep T m s) s = some v := by
  unfold regStep
  split_ifs with ha
  · cases hl : dictLookup m s with
    | none =>
      rw [dictLookup_eq_none_iff] at hl
      exact absurd ((any_key_iff_mem m s).mp ha) hl
    | some v => exact ⟨v, rfl⟩
  · have hn : dictLookup m s = none := by
      rw [dictLookup_eq_none_iff]
      intro hmem
      rw [(any_key_iff_mem m s).mpr hmem] at ha
      exact ha rfl
    exact ⟨List.replicate T none, dictLookup_append_single_self m s _ hn⟩

/-- Registry completion binds every name of the completed list. -/
theorem regFold_lookup_mem {V : Type} (T : Nat) :
    ∀ (l : List String) (m : List (String × List (Option V))) (k : String),
      k ∈ l → ∃ v, dictLookup (l.foldl (regStep T) m) k = some v
  | s :: rest, m, k, hk => by
    rcases List.mem_cons.mp hk with h | h
    · subst h
      rcases regStep_lookup_self T m k with ⟨v, hv⟩
      exact ⟨v, regFold_lookup_some T rest _ k v hv⟩
    · exact regFold_lookup_mem T rest (regStep T m s) k h

/-- A name of the completed list that was absent beforehand ends bound
to a column made entirely of null markers. -/
theorem regFold_lookup_absent {V : Type} (T : Nat) :
    ∀ (l : List String) (m : List (String × List (Option V))) (k : String),
      dictLookup m k = none → k ∈ l →
      dictLookup (l.foldl (regStep T) m) k = some (List.replicate T none)
  | s :: rest, m, k, hnone, hk => by
    by_cases hks : k = s
    · subst hks
      have hstep : dictLookup (regStep T m k) k = some (List.replicate T none) := by
        unfold regStep
        rw [if_neg (fun ha =>
          (dictLookup_eq_none_iff m k).mp hnone ((any_key_iff_mem m k).mp ha))]
        exact dictLookup_append_single_self m k _ hnone
      exact regFold_lookup_some T rest _ k _ hstep
    · have hstep : dictLookup (regStep T m s) k = none := by
        unfold regStep
        split_ifs with ha
        · exact hnone
        · exact dictLookup_append_single_ne m k s _ (fun hsk => hks hsk.symm) hnone
      have hk' : k ∈ rest := by
        rcases List.mem_cons.mp hk with h | h
        · exact absurd h hks
        · exact h
      exact regFold_lookup_absent T rest (regStep T m s) k hstep hk'

/-- The primary loop only produces columns of the canonical length. -/
theorem addPrimary_length {V : Type} (T : Nat) (blocks : List (SensorBlock V))
    (m : List (String × List (Option V))) (hm : ∀ p ∈ m, p.2.length = T) :
    ∀ p ∈ addPrimary T blocks m, p.2.length = T := by
  refine foldl_inv _ (fun m => ∀ p ∈ m, p.2.length = T) ?_ blocks m hm
  intro s b hs
  dsimp only
  cases b.data with
  | none => exact hs
  | some dd =>
    dsimp only
    cases dd.values with
    | none => exact hs
    | some vs =>
      dsimp only
      exact dictInsert_forall (fun c => c.length = T) s b.sensorName
        (alignValues vs T) hs (alignValues_length vs T)

/-- The chlorophyll loop only produces columns of the canonical length. -/
theorem addChlorophyll_length {V : Type} (T : Nat) (blocks : List (SensorBlock V))
    (m : List (String × List (Option V))) (hm : ∀ p ∈ m, p.2.length = T) :
    ∀ p ∈ addChlorophyll T blocks m, p.2.length = T := by
  refine foldl_inv _ (fun m => ∀ p ∈ m, p.2.length = T) ?_ blocks m hm
  intro s b hs
  dsimp only
  by_cases hn : b.sensorName == "Chlorophyll"
  · rw [if_pos hn]
    cases b.data with
    | none => exact hs
    | some dd =>
      dsimp only
      cases dd.values with
      | none => exact hs
      | some vs =>
        dsimp only
        exact dictInsert_forall (fun c => c.length = T) s "Chlorophyll"
          (alignValues vs T) hs (alignValues_length vs T)
  · rw [if_neg hn]
    exact hs

/-- Registry completion only produces columns of the canonical length. -/
theorem regFold_length {V : Type} (T : Nat) (l : List String)
    (m : List (String × List (Option V))) (hm : ∀ p ∈ m, p.2.length = T) :
    ∀ p ∈ l.foldl (regStep T) m, p.2.length = T := by
  refine foldl_inv _ (fun m => ∀ p ∈ m, p.2.length = T) ?_ l m hm
  intro s b hs
  unfold regStep
  split_ifs with ha
  · exact hs
  · intro p hp
    rcases List.mem_append.mp hp with h | h
    · exact hs p h
    · rw [List.mem_singleton.mp h]
      simp

/-- Every column `process_api_data` accumulates has the canonical length. -/
theorem processColumns_length {V : Type} (T : Nat) (d : FetchedData V) :
    ∀ p ∈ completeRegistry T (primaryColumns T d), p.2.length = T := by
  unfold completeRegistry
  refine regFold_length T expected_sensors _ ?_
  unfold primaryColumns
  cases hps : d.primary.sensorData with
  | none =>
    cases d.chlorophyll with
    | none => simp
    | some cp =>
      dsimp only
      cases cp.sensorData with
      | none => simp
      | some cblocks =>
        dsimp only
        exact addChlorophyll_length T cblocks [] (by simp)
  | some blocks =>
    cases d.chlorophyll with
    | none =>
      dsimp only
      exact addPrimary_length T blocks [] (by simp)
    | some cp =>
      dsimp only
      cases cp.sensorData with
      | none =>
        dsimp only
        exact addPrimary_length T blocks [] (by simp)
      | some cblocks =>
        dsimp only
        exact addChlorophyll_length T cblocks _ (addPrimary_length T blocks [] (by simp))

/-- The primary loop keeps column keys distinct. -/
theorem addPrimary_nodup {V : Type} (T : Nat) (blocks : List (SensorBlock V))
    (m : List (String × List (Option V))) (hm : (m.map Prod.fst).Nodup) :
    ((addPrimary T blocks m).map Prod.fst).Nodup := by
  refine foldl_inv _ (fun m => (m.map Prod.fst).Nodup) ?_ blocks m hm
  intro s b hs
  dsimp only
  cases b.data with
  | none => exact hs
  | some dd =>
    dsimp only
    cases dd.values with
    | none => exact hs
    | some vs =>
      dsimp only
      exact dictInsert_keys_nodup s _ _ hs

/-- The chlorophyll loop keeps column keys distinct. -/
theorem addChlorophyll_nodup {V : Type} (T : Nat) (blocks : List (SensorBlock V))
    (m : List (String × List (Option V))) (hm : (m.map Prod.fst).Nodup) :
    ((addChlorophyll T blocks m).map Prod.fst).Nodup := by
  refine foldl_inv _ (fun m => (m.map Prod.fst).Nodup) ?_ blocks m hm
  intro s b hs
  dsimp only
  by_cases hn : b.sensorName == "Chlorophyll"
  · rw [if_pos hn]
    cases b.data with
    | none => exact hs
    | some dd =>
      dsimp only
      cases dd.values with
      | none => exact hs
      | some vs =>
        dsimp only
        exact dictInsert_keys_nodup s _ _ hs
  · rw [if_neg hn]
    exact hs

/-- Registry completion keeps column keys distinct. -/
theorem regFold_nodup {V : Type} (T : Nat) (l : List String)
    (m : List (String × List (Option V))) (hm : (m.map Prod.fst).Nodup) :
    ((l.foldl (regStep T) m).map Prod.fst).Nodup := by
  refine foldl_inv _ (fun m => (m.map Prod.fst).Nodup) ?_ l m hm
  intro s b hs
  unfold regStep
  split_ifs with ha
  · exact hs
  · have hb : b ∉ s.map Prod.fst := by
      intro hmem
      rw [(any_key_iff_mem s b).mpr hmem] at ha
      exact ha rfl
    have : ((s.map Prod.fst) ++ [b]).Nodup ↔ (s.map Prod.fst).Nodup ∧ b ∉ s.map Prod.fst := by
      simp [List.nodup_append]
    simpa using this.mpr ⟨hs, hb⟩

/-- The columns of the completed table have distinct keys. -/
theorem processColumns_nodup {V : Type} (T : Nat) (d : FetchedData V) :
    ((completeRegistry T (primaryColumns T d)).map Prod.fst).Nodup := by
  unfold completeRegistry
  refine regFold_nodup T expected_sensors _ ?_
  unfold primaryColumns
  cases hps : d.primary.sensorData with
  | none =>
    cases d.chlorophyll with
    | none => simp
    | some cp =>
      dsimp only
      cases cp.sensorData with
      | none => simp
      | some cblocks =>
        dsimp only
        exact addChlorophyll_nodup T cblocks [] (by simp)
  | some blocks =>
    cases d.chlorophyll with
    | none =>
      dsimp only
      exact addPrimary_nodup T blocks [] (by simp)
    | some cp =>
      dsimp only
      cases cp.sensorData with
      | none =>
        dsimp only
        exact addPrimary_nodup T blocks [] (by simp)
      | some cblocks =>
        dsimp only
        exact addChlorophyll_nodup T cblocks _ (addPrimary_nodup T blocks [] (by simp))

/-- What the chlorophyll loop leaves under the `"Chlorophyll"` key: the
aligned values of the last contributing block, or the prior binding if
no block contributes. -/
theorem addChlorophyll_lookup {V : Type} (T : Nat) :
    ∀ (blocks : List (SensorBlock V)) (m : List (String × List (Option V))),
      dictLookup (addChlorophyll T blocks m) "Chlorophyll" =
        match lastChlorValues blocks with
        | some vs => some (alignValues vs T)
        | none => dictLookup m "Chlorophyll"
  | [], m => rfl
  | b :: rest, m => by
    have hfold : addChlorophyll T (b :: rest) m =
        addChlorophyll T rest ((fun m b =>
          if b.sensorName == "Chlorophyll" then
            match b.data with
            | some d =>
              match d.values with
              | some vs => dictInsert m "Chlorophyll" (alignValues vs T)
              | none => m
            | none => m
          else m) m b) := by
      simp [addChlorophyll]
    rw [hfold, addChlorophyll_lookup T rest]
    cases hl : lastChlorValues rest with
    | some vs =>
      show _ = (match lastChlorValues (b :: rest) with
        | some vs => some (alignValues vs T)
        | none => dictLookup m "Chlorophyll")
      unfold lastChlorValues
      rw [hl]
    | none =>
      show _ = (match lastChlorValues (b :: rest) with
        | some vs => some (alignValues vs T)
        | none => dictLookup m "Chlorophyll")
      unfold lastChlorValues
      rw [hl]
      dsimp only
      by_cases hn : b.sensorName == "Chlorophyll"
      · rw [if_pos hn]
        simp only [if_pos hn]
        cases b.data with
        | none => rfl
        | some dd =>
          dsimp only
          cases hv : dd.values with
          | none => rfl
          | some vs =>
            dsimp only
            exact dictLookup_dictInsert_self m "Chlorophyll" _
      · rw [if_neg hn]
        simp only [if_neg hn]

/-- Componentwise characterization of indexing into a zip. -/
theorem getElem?_zip_some {α β : Type _} :
    ∀ (xs : List α) (ys : List β) (i : Nat) (a : α) (b : β),
      xs[i]? = some a → ys[i]? = some b → (xs.zip ys)[i]? = some (a, b)
  | [], _, i, _, _, ha, _ => by
    simp at ha
  | _ :: _, [], i, _, _, _, hb => by
    simp at hb
  | x :: xs, y :: ys, 0, a, b, ha, hb => by
    simp only [List.getElem?_cons_zero, Option.some.injEq] at ha hb
    simp [List.zip_cons_cons, ha, hb]
  | x :: xs, y :: ys, i + 1, a, b, ha, hb => by
    simp only [List.getElem?_cons_succ] at ha hb
    simpa [List.zip_cons_cons] using getElem?_zip_some xs ys i a b ha hb

/-! ## Claim theorems -/

/-- C2.  For every row of the Normalized Table in which the oxygen, pH,
and temperature columns are all non-null, the ecosystem health score for
that row equals exactly `10*oxygen - 2*pH - temperature`. -/
theorem health_score_row_formula (ox ph te : List (Option Rat)) (i : Nat)
    (o p t : Rat) (ho : ox[i]? = some (some o)) (hp : ph[i]? = some (some p))
    (ht : te[i]? = some (some t)) :
    (healthScoreColumn ox ph te)[i]? = some (some (10 * o - 2 * p - t)) := by
  have hz2 : (ph.zip te)[i]? = some (some p, some t) :=
    getElem?_zip_some ph te i (some p) (some t) hp ht
  have hz : (ox.zip (ph.zip te))[i]? = some (some o, (some p, some t)) :=
    getElem?_zip_some ox (ph.zip te) i (some o) (some p, some t) ho hz2
  unfold healthScoreColumn
  rw [List.getElem?_map, hz]
  simp [healthScore]

/-- C2 witness: the health score of a concrete fully-populated row. -/
theorem health_score_row_formula_witness :
    (healthScoreColumn [some 1] [some 2] [some 3])[0]? = some (some (10 * 1 - 2 * 2 - 3)) :=
  health_score_row_formula [some 1] [some 2] [some 3] 0 1 2 3 rfl rfl rfl

/-- C3.  A channel value array longer than the canonical timestamp
length `T` is truncated to its first `T` entries; one shorter is padded
with null markers to length `T`; hence every aligned column, and every
value column of a normalized table that carries a timestamp column, has
length exactly `T`. -/
theorem align_truncate_pad_column_lengths {V : Type} (values : List (Option V))
    (T : Nat) (data : Option (FetchedData V)) :
    (values.length > T → alignValues values T = values.take T) ∧
    (values.length < T →
      alignValues values T = values ++ List.replicate (T - values.length) none) ∧
    (alignValues values T).length = T ∧
    (∀ tcol cols, process_api_data data = ⟨some tcol, cols⟩ →
      ∀ p ∈ cols, p.2.length = tcol.length) := by
  refine ⟨?_, ?_, alignValues_length values T, ?_⟩
  · intro h
    unfold alignValues
    rw [if_pos h]
  · intro h
    unfold alignValues
    rw [if_neg (by omega), if_pos h]
  · intro tcol cols hproc p hp
    cases data with
    | none =>
      cases hproc
    | some d =>
      unfold process_api_data at hproc
      dsimp only at hproc
      cases hbody : process_api_data_body d with
      | error e =>
        rw [hbody] at hproc
        cases hproc
      | ok tb =>
        rw [hbody] at hproc
        dsimp only at hproc
        unfold process_api_data_body at hbody
        cases hct : canonicalTimes d with
        | none =>
          rw [hct] at hbody
          dsimp only at hbody
          cases hbody
          cases hproc
        | some raw =>
          rw [hct] at hbody
          dsimp only at hbody
          cases hutc : toDatetimeUtc raw with
          | error e =>
            rw [hutc] at hbody
            dsimp only at hbody
            cases hbody
          | ok utc =>
            rw [hutc] at hbody
            dsimp only at hbody
            cases hbody
            cases hproc
            have hlen : utc.length = raw.length := toDatetimeUtc_length raw utc hutc
            have := processColumns_length raw.length d p hp
            simp [List.length_map, hlen, this]

/-- C3 witness: pad and truncate at a concrete payload. -/
theorem align_truncate_pad_column_lengths_witness :
    ([some (1 : Int), some 2, some 3, some 4].length > 3 →
      alignValues [some (1 : Int), some 2, some 3, some 4] 3 =
        [some (1 : Int), some 2, some 3, some 4].take 3) ∧
    ([some (1 : Int), some 2, some 3, some 4].length < 3 →
      alignValues [some (1 : Int), some 2, some 3, some 4] 3 =
        [some (1 : Int), some 2, some 3, some 4] ++
          List.replicate (3 - [some (1 : Int), some 2, some 3, some 4].length) none) ∧
    (alignValues [some (1 : Int), some 2, some 3, some 4] 3).length = 3 ∧
    (∀ tcol cols,
      process_api_data (some (⟨⟨some [⟨"Temperature",
          some ⟨some [.valid 0, .valid 60, .valid 120], some [some (1 : Int), some 2]⟩⟩]⟩,
        none⟩ : FetchedData Int)) = ⟨some tcol, cols⟩ →
      ∀ p ∈ cols, p.2.length = tcol.length) :=
  align_truncate_pad_column_lengths [some 1, some 2, some 3, some 4] 3
    (some ⟨⟨some [⟨"Temperature",
      some ⟨some [.valid 0, .valid 60, .valid 120], some [some 1, some 2]⟩⟩]⟩, none⟩)

/-- C4.  For every supported selector the range resolver returns
`(start, end)` with `end = now`, `start < end`, and `end − start` equal
to the documented duration exactly; for "All Available Data" the start
is the fixed epoch date 2023-12-13 (so `start < end` requires `now`
after that epoch). -/
theorem get_time_range_durations (now : Int)
    (h : daysFromCivil 2023 12 13 * 86400 < now) :
    (∃ a, get_time_range "Past 10 Minutes" now = (some a, some now) ∧
      now - a = 10 * 60 ∧ a < now) ∧
    (∃ a, get_time_range "Past 2 Hours" now = (some a, some now) ∧
      now - a = 2 * 3600 ∧ a < now) ∧
    (∃ a, get_time_range "Past 24 Hours" now = (some a, some now) ∧
      now - a = 86400 ∧ a < now) ∧
    (∃ a, get_time_range "Past 7 Days" now = (some a, some now) ∧
      now - a = 7 * 86400 ∧ a < now) ∧
    (∃ a, get_time_range "Past 1 Month" now = (some a, some now) ∧
      now - a = 30 * 86400 ∧ a < now) ∧
    (∃ a, get_time_range "Past 6 Months" now = (some a, some now) ∧
      now - a = 180 * 86400 ∧ a < now) ∧
    (∃ a, get_time_range "Past 1 Year" now = (some a, some now) ∧
      now - a = 365 * 86400 ∧ a < now) ∧
    (∃ a, get_time_range "All Available Data" now = (some a, some now) ∧
      a = daysFromCivil 2023 12 13 * 86400 ∧ a < now) := by
  refine ⟨⟨now - 10 * 60, rfl, by omega, by omega⟩,
    ⟨now - 2 * 3600, rfl, by omega, by omega⟩,
    ⟨now - 86400, rfl, by omega, by omega⟩,
    ⟨now - 7 * 86400, rfl, by omega, by omega⟩,
    ⟨now - 30 * 86400, rfl, by omega, by omega⟩,
    ⟨now - 180 * 86400, rfl, by omega, by omega⟩,
    ⟨now - 365 * 86400, rfl, by omega, by omega⟩,
    ⟨daysFromCivil 2023 12 13 * 86400, rfl, rfl, h⟩⟩

/-- C4 witness: the resolver evaluated at a concrete instant after the
2023-12-13 epoch. -/
theorem get_time_range_durations_witness :
    ∃ a, get_time_range "All Available Data" 1717243200 = (some a, some 1717243200) ∧
      a = daysFromCivil 2023 12 13 * 86400 ∧ a < 1717243200 :=
  (get_time_range_durations 1717243200 (by decide)).2.2.2.2.2.2.2

/-- C5.  The request carries a resample period of exactly 86400 seconds
iff the selector is "Past 6 Months", exactly 259200 seconds iff it is
"Past 1 Year" or "All Available Data", and no resample period for every
other supported selector. -/
theorem resample_period_policy (s : String) :
    (resamplePeriod s = some 86400 ↔ s = "Past 6 Months") ∧
    (resamplePeriod s = some 259200 ↔ (s = "Past 1 Year" ∨ s = "All Available Data")) ∧
    (∀ t ∈ supported_selectors, t ≠ "Past 6 Months" → t ≠ "Past 1 Year" →
      t ≠ "All Available Data" → resamplePeriod t = none) := by
  refine ⟨?_, ?_, by decide⟩
  · unfold resamplePeriod
    split_ifs with h1 h2
    · simp [h1]
    · rcases h2 with h2 | h2 <;> simp [h2, h1]
    · simp [h1]
  · unfold resamplePeriod
    split_ifs with h1 h2
    · constructor
      · intro hcon
        cases hcon
      · intro hcon
        rcases hcon with hc | hc <;> simp_all
    · simp [h2]
    · simp [h2]

/-- On the success path — a canonical timestamp vector is found and
parses — the normalizer returns the converted time column and the
registry-completed value columns. -/
theorem process_api_data_success {V : Type} (d : FetchedData V) (raw : List RawTime)
    (utc : List Int) (h1 : canonicalTimes d = some raw)
    (h2 : toDatetimeUtc raw = .ok utc) :
    process_api_data (some d) =
      ⟨some (utc.map toHalifax),
        completeRegistry raw.length (primaryColumns raw.length d)⟩ := by
  unfold process_api_data
  dsimp only
  unfold process_api_data_body
  rw [h1]
  dsimp only
  rw [h2]

/-- C1 (amended).  When the selector is unrecognized or the primary
request returns a non-200 status, the fetch-button handler replaces the
caller's table with the empty table — whatever the table previously
held, it does not remain. -/
theorem fetch_failure_replaces_table_with_empty {V : Type} (prev : Table V)
    (time_range : String) (now : Int) (std : HttpResponse V)
    (chl : Option (HttpResponse V))
    (h : (get_time_range time_range now).1 = none ∨
      (get_time_range time_range now).2 = none ∨ std.status_code ≠ 200) :
    fetchButtonHandler prev time_range now std chl = emptyTable := by
  unfold fetchButtonHandler fetch_data
  dsimp only
  by_cases hr : (get_time_range time_range now).1 = none ∨
      (get_time_range time_range now).2 = none
  · rw [if_pos hr]
    rfl
  · have hstat : std.status_code ≠ 200 := by
      tauto
    rw [if_neg hr, if_neg hstat]
    rfl

/-- C1 counterexample: a fetch with an unrecognized selector does not
leave a previously nonempty table unchanged — the claim as stated fails
at this input. -/
theorem fetch_failure_table_changed_cex :
    fetchButtonHandler (⟨some [0], [("Temperature", [some (5 : Int)])]⟩ : Table Int)
        "Yesterday" 1717243200 ⟨200, ⟨none⟩⟩ none ≠
      ⟨some [0], [("Temperature", [some (5 : Int)])]⟩ := by
  decide

/-- C1 witness: the amended statement at the same concrete input. -/
theorem fetch_failure_replaces_table_with_empty_witness :
    fetchButtonHandler (⟨some [0], [("Temperature", [some (5 : Int)])]⟩ : Table Int)
        "Yesterday" 1717243200 ⟨200, ⟨none⟩⟩ none = emptyTable :=
  fetch_failure_replaces_table_with_empty
    (⟨some [0], [("Temperature", [some (5 : Int)])]⟩ : Table Int)
    "Yesterday" 1717243200 ⟨200, ⟨none⟩⟩ none (Or.inl (by decide))

/-- C6 (amended).  For every input payload on which normalization
succeeds (a canonical timestamp vector is found and parses), every name
of the expected-channel registry appears as a column of the output,
bound to a column made entirely of null markers when the channel is
absent upstream. -/
theorem registry_completion_on_success {V : Type} (d : FetchedData V)
    (raw : List RawTime) (utc : List Int) (s : String)
    (h1 : canonicalTimes d = some raw) (h2 : toDatetimeUtc raw = .ok utc)
    (hs : s ∈ expected_sensors) :
    (∃ col, dictLookup (process_api_data (some d)).cols s = some col) ∧
    ((primaryColumns raw.length d).any (fun p => p.1 == s) = false →
      dictLookup (process_api_data (some d)).cols s =
        some (List.replicate raw.length none)) := by
  rw [process_api_data_success d raw utc h1 h2]
  dsimp only
  constructor
  · unfold completeRegistry
    exact regFold_lookup_mem raw.length expected_sensors _ s hs
  · intro hany
    have hnone : dictLookup (primaryColumns raw.length d) s = none := by
      rw [dictLookup_eq_none_iff]
      intro hmem
      rw [(any_key_iff_mem _ s).mpr hmem] at hany
      cases hany
    unfold completeRegistry
    exact regFold_lookup_absent raw.length expected_sensors _ s hnone hs

/-- C6 counterexample: on a payload with no sensor-data list the
normalizer returns a table with no columns at all, so the registry
names do not appear — the claim's universal "for every input payload"
fails at this input. -/
theorem registry_missing_on_shapeless_payload_cex :
    (process_api_data (some (⟨⟨none⟩, none⟩ : FetchedData Int))).cols = [] ∧
      "Temperature" ∈ expected_sensors := by
  exact ⟨rfl, by decide⟩

/-- C6 witness: the amended statement at a concrete payload carrying
only a Temperature channel, looked up at the absent channel Density. -/
theorem registry_completion_on_success_witness :
    (∃ col, dictLookup (process_api_data (some (⟨⟨some [⟨"Temperature",
        some ⟨some [RawTime.valid 0], some [some (1 : Int)]⟩⟩]⟩,
        none⟩ : FetchedData Int))).cols "Density" = some col) ∧
    ((primaryColumns 1 (⟨⟨some [⟨"Temperature",
        some ⟨some [RawTime.valid 0], some [some (1 : Int)]⟩⟩]⟩,
        none⟩ : FetchedData Int)).any (fun p => p.1 == "Density") = false →
      dictLookup (process_api_data (some (⟨⟨some [⟨"Temperature",
        some ⟨some [RawTime.valid 0], some [some (1 : Int)]⟩⟩]⟩,
        none⟩ : FetchedData Int))).cols "Density" =
          some (List.replicate 1 none)) :=
  registry_completion_on_success
    (⟨⟨some [⟨"Temperature", some ⟨some [RawTime.valid 0], some [some (1 : Int)]⟩⟩]⟩,
      none⟩ : FetchedData Int)
    [RawTime.valid 0] [0] "Density" rfl rfl (by decide)

/-- C7.  The normalizer never propagates an exception: for every input
it returns a table, and when the payload is absent, lacks a sensor-data
list, contains no block with a `sampleTimes` array, or the body raises,
that table is the empty table with no columns. -/
theorem normalizer_total_errors_collapse {V : Type} (data : Option (FetchedData V)) :
    (data = none → process_api_data data = emptyTable) ∧
    (∀ d, data = some d → d.primary.sensorData = none →
      process_api_data data = emptyTable) ∧
    (∀ d blocks, data = some d → d.primary.sensorData = some blocks →
      findSampleTimes blocks = none → process_api_data data = emptyTable) ∧
    (∀ d e, data = some d → process_api_data_body d = .error e →
      process_api_data data = emptyTable) ∧
    (emptyTable : Table V).cols = [] ∧ (emptyTable : Table V).timeCol = none := by
  refine ⟨?_, ?_, ?_, ?_, rfl, rfl⟩
  · intro h
    subst h
    rfl
  · intro d hd hsd
    subst hd
    have hbody : process_api_data_body d = .ok emptyTable := by
      unfold process_api_data_body canonicalTimes
      rw [hsd]
    unfold process_api_data
    dsimp only
    rw [hbody]
  · intro d blocks hd hsd hfind
    subst hd
    have hbody : process_api_data_body d = .ok emptyTable := by
      unfold process_api_data_body canonicalTimes
      rw [hsd]
      dsimp only
      rw [hfind]
    unfold process_api_data
    dsimp only
    rw [hbody]
  · intro d e hd hbody
    subst hd
    unfold process_api_data
    dsimp only
    rw [hbody]

/-- C8.  Every canonical timestamp, zone-naive and interpreted as UTC,
is converted to `America/Halifax` civil time; the daylight-saving
window of 2024 starts on the second Sunday of March (March 10, 06:00
UTC) and ends on the first Sunday of November (November 3, 05:00 UTC),
and 2024-06-01T12:00:00Z converts to 09:00 Atlantic Daylight Time
(offset −3 h) while 2024-01-15T12:00:00Z converts to 08:00 Atlantic
Standard Time (offset −4 h). -/
theorem timezone_conversion_halifax {V : Type} (d : FetchedData V)
    (raw : List RawTime) (utc : List Int) (h1 : canonicalTimes d = some raw)
    (h2 : toDatetimeUtc raw = .ok utc) :
    (process_api_data (some d)).timeCol = some (utc.map toHalifax) ∧
    halifaxDstStart 2024 = daysFromCivil 2024 3 10 * 86400 + 6 * 3600 ∧
    halifaxDstEnd 2024 = daysFromCivil 2024 11 3 * 86400 + 5 * 3600 ∧
    toHalifax (daysFromCivil 2024 6 1 * 86400 + 12 * 3600) =
      daysFromCivil 2024 6 1 * 86400 + 9 * 3600 ∧
    halifaxOffset (daysFromCivil 2024 6 1 * 86400 + 12 * 3600) = -3 * 3600 ∧
    toHalifax (daysFromCivil 2024 1 15 * 86400 + 12 * 3600) =
      daysFromCivil 2024 1 15 * 86400 + 8 * 3600 := by
  refine ⟨?_, by decide, by decide, by decide, by decide, by decide⟩
  rw [process_api_data_success d raw utc h1 h2]

/-- C8 witness: the time column of a concrete normalized payload. -/
theorem timezone_conversion_halifax_witness :
    (process_api_data (some (⟨⟨some [⟨"Temperature",
        some ⟨some [RawTime.valid 1717243200], some [some (1 : Int)]⟩⟩]⟩,
        none⟩ : FetchedData Int))).timeCol = some ([(1717243200 : Int)].map toHalifax) :=
  (timezone_conversion_halifax
    (⟨⟨some [⟨"Temperature",
      some ⟨some [RawTime.valid 1717243200], some [some (1 : Int)]⟩⟩]⟩,
      none⟩ : FetchedData Int)
    [RawTime.valid 1717243200] [1717243200] rfl rfl).1

/-- C9.  When the primary payload and the supplemental payload both
carry a channel named "Chlorophyll" with values, the output's
Chlorophyll column equals the supplemental payload's aligned values —
the merge overwrites the same-named column instead of adding a second
one, so exactly one Chlorophyll column remains. -/
theorem chlorophyll_merge_overwrites {V : Type} (d : FetchedData V)
    (pblocks cblocks : List (SensorBlock V)) (raw : List RawTime) (utc : List Int)
    (cp : ApiPayload V) (vs : List (Option V))
    (hpb : d.primary.sensorData = some pblocks)
    (h1 : findSampleTimes pblocks = some raw)
    (h2 : toDatetimeUtc raw = .ok utc)
    (hc : d.chlorophyll = some cp)
    (hcb : cp.sensorData = some cblocks)
    (hvs : lastChlorValues cblocks = some vs)
    (_hprim : ∃ b ∈ pblocks, b.sensorName = "Chlorophyll" ∧
      ∃ bd, b.data = some bd ∧ bd.values.isSome) :
    dictLookup (process_api_data (some d)).cols "Chlorophyll" =
      some (alignValues vs raw.length) ∧
    ((process_api_data (some d)).cols.map Prod.fst).count "Chlorophyll" = 1 := by
  have hct : canonicalTimes d = some raw := by
    unfold canonicalTimes
    rw [hpb]
    exact h1
  rw [process_api_data_success d raw utc hct h2]
  dsimp only
  have hprimCols : primaryColumns raw.length d =
      addChlorophyll raw.length cblocks (addPrimary raw.length pblocks []) := by
    unfold primaryColumns
    rw [hpb, hc]
    dsimp only
    rw [hcb]
  have hlook : dictLookup (primaryColumns raw.length d) "Chlorophyll" =
      some (alignValues vs raw.length) := by
    rw [hprimCols, addChlorophyll_lookup raw.length cblocks _, hvs]
  have hfinal : dictLookup
      (completeRegistry raw.length (primaryColumns raw.length d)) "Chlorophyll" =
      some (alignValues vs raw.length) := by
    unfold completeRegistry
    exact regFold_lookup_some raw.length expected_sensors _ _ _ hlook
  refine ⟨hfinal, ?_⟩
  exact List.count_eq_one_of_mem (processColumns_nodup raw.length d)
    (mem_keys_of_dictLookup_some _ _ _ hfinal)

/-- C9 witness: both payloads carry Chlorophyll; the supplemental's
padded values win and only one Chlorophyll column remains. -/
theorem chlorophyll_merge_overwrites_witness :
    dictLookup (process_api_data (some (⟨⟨some [⟨"Chlorophyll",
        some ⟨some [RawTime.valid 0, RawTime.valid 60],
          some [some (1 : Int), some 2]⟩⟩]⟩,
        some ⟨some [⟨"Chlorophyll", some ⟨none, some [some (7 : Int)]⟩⟩]⟩⟩ :
        FetchedData Int))).cols "Chlorophyll" =
      some (alignValues [some (7 : Int)] 2) ∧
    ((process_api_data (some (⟨⟨some [⟨"Chlorophyll",
        some ⟨some [RawTime.valid 0, RawTime.valid 60],
          some [some (1 : Int), some 2]⟩⟩]⟩,
        some ⟨some [⟨"Chlorophyll", some ⟨none, some [some (7 : Int)]⟩⟩]⟩⟩ :
        FetchedData Int))).cols.map Prod.fst).count "Chlorophyll" = 1 :=
  chlorophyll_merge_overwrites
    (⟨⟨some [⟨"Chlorophyll",
      some ⟨some [RawTime.valid 0, RawTime.valid 60],
        some [some (1 : Int), some 2]⟩⟩]⟩,
      some ⟨some [⟨"Chlorophyll", some ⟨none, some [some (7 : Int)]⟩⟩]⟩⟩ :
      FetchedData Int)
    [⟨"Chlorophyll", some ⟨some [RawTime.valid 0, RawTime.valid 60],
      some [some (1 : Int), some 2]⟩⟩]
    [⟨"Chlorophyll", some ⟨none, some [some (7 : Int)]⟩⟩]
    [RawTime.valid 0, RawTime.valid 60] [0, 60]
    ⟨some [⟨"Chlorophyll", some ⟨none, some [some (7 : Int)]⟩⟩]⟩
    [some (7 : Int)] rfl rfl rfl rfl rfl rfl
    ⟨⟨"Chlorophyll", some ⟨some [RawTime.valid 0, RawTime.valid 60],
      some [some (1 : Int), some 2]⟩⟩, by decide, rfl,
      ⟨⟨some [RawTime.valid 0, RawTime.valid 60],
        some [some (1 : Int), some 2]⟩, rfl, rfl⟩⟩

/-- C10 counterexample: `safe_float_convert` is not total — `float()`
of the int `2^1024` (written as its decimal value) raises
`OverflowError`, the `except (ValueError, TypeError)` clause does not
catch it, and the exception escapes `show_condition_alerts` as well. -/
theorem safe_float_convert_overflow_cex :
    safe_float_convert (.int
      179769313486231590772930519078902473361797697894230657273430081157732675805500963132708477322407536021120113879871393357658789768814416622492847430639474124377767893424865485276302219601246094119453082952085005768838150682342462881473913110540827237163350510684586298239947245938479716304835356329624224137216) 0 =
      .error .overflowError ∧
    show_condition_alerts [[("Temperature", PyVal.int
      179769313486231590772930519078902473361797697894230657273430081157732675805500963132708477322407536021120113879871393357658789768814416622492847430639474124377767893424865485276302219601246094119453082952085005768838150682342462881473913110540827237163350510684586298239947245938479716304835356329624224137216)]] 7 =
      .error .overflowError := by
  exact ⟨rfl, rfl⟩

/-- C10 (amended).  `safe_float_convert` returns a float for every
input except an int at or beyond the double range, where `float()`
raises `OverflowError` and the `except (ValueError, TypeError)` clause
lets it escape; and `show_condition_alerts` treats a latest Temperature
that converts to exactly 0.0 the same as a missing or unparseable one,
reporting no temperature available in all three cases. -/
theorem safe_float_partial_total_zero_collapse (v : PyVal) (d : Rat) (m : Nat) :
    ((∃ f, safe_float_convert v d = .ok f) ∨
      (∃ n, v = .int n ∧ intOverflows n = true ∧
        safe_float_convert v d = .error .overflowError)) ∧
    safe_float_convert (.float 0) 0 = .ok (.val 0) ∧
    safe_float_convert (.int 0) 0 = .ok (.val 0) ∧
    safe_float_convert PyVal.none 0 = .ok (.val 0) ∧
    safe_float_convert (.str "n/a") 0 = .ok (.val 0) ∧
    show_condition_alerts [[("Temperature", PyVal.float 0)]] m =
      .ok [.noTemperatureData] ∧
    show_condition_alerts [[]] m = .ok [.noTemperatureData] ∧
    show_condition_alerts [[("Temperature", PyVal.str "n/a")]] m =
      .ok [.noTemperatureData] := by
  refine ⟨?_, rfl, rfl, rfl, rfl, rfl, rfl, rfl⟩
  cases v with
  | none => exact Or.inl ⟨.val d, rfl⟩
  | float q => exact Or.inl ⟨.val q, rfl⟩
  | int n =>
    by_cases ho : intOverflows n = true
    · refine Or.inr ⟨n, rfl, ho, ?_⟩
      unfold safe_float_convert tryBodyFloat
      dsimp only
      rw [if_pos ho]
    · refine Or.inl ⟨.val (n : Rat), ?_⟩
      unfold safe_float_convert tryBodyFloat
      dsimp only
      rw [if_neg ho]
  | str s =>
    refine Or.inl ?_
    unfold safe_float_convert tryBodyFloat
    dsimp only
    by_cases hs : s = ""
    · rw [if_pos hs]
      exact ⟨.val d, rfl⟩
    · rw [if_neg hs]
      cases hf : floatOfString (stripDegC s) with
      | some f => exact ⟨f, rfl⟩
      | none => exact ⟨.val d, rfl⟩
end MarineMigration
